import Mathlib

/-! Verification of the showcampy crawl-resolve-dedup-download pipeline
(`src/showcampy/__main__.py`), shallowly embedded in Lean.  Python strings are
modelled as `String`/`List Char`, Python exceptions as `Except`/`Option`
results, and the external collaborators (document fetcher, HEAD probe,
transfer subprocess, metadata embedder) as an explicit environment record. -/

namespace Showcampy

/-- Decidable equality of `Except` results, component-wise. -/
instance {ε α : Type} [DecidableEq ε] [DecidableEq α] : DecidableEq (Except ε α) :=
  fun a b =>
    match a, b with
    | .error e, .error f =>
      if h : e = f then isTrue (h ▸ rfl)
      else isFalse (fun hh => Except.noConfusion hh fun h2 => h h2)
    | .error _, .ok _ => isFalse fun hh => Except.noConfusion hh
    | .ok _, .error _ => isFalse fun hh => Except.noConfusion hh
    | .ok x, .ok y =>
      if h : x = y then isTrue (h ▸ rfl)
      else isFalse (fun hh => Except.noConfusion hh fun h2 => h h2)

/-! Section: Python string primitives used by the source. -/

/-- Characters stripped by Python `str.strip()` with no argument, for the
ASCII subset this program handles. -/
def pyIsSpace (c : Char) : Bool :=
  c == ' ' || c == '\t' || c == '\n' || c == '\r' || c == '\x0b' || c == '\x0c'

/-- Python `s.lstrip(chars)`: drop leading characters belonging to the
character set `cset` (Python treats the argument as a set of characters). -/
def pyLstripCharsL (cset s : List Char) : List Char :=
  s.dropWhile (fun c => cset.contains c)

/-- Python `s.rstrip(chars)`: drop trailing characters belonging to the
character set `cset`. -/
def pyRstripCharsL (cset s : List Char) : List Char :=
  (s.reverse.dropWhile (fun c => cset.contains c)).reverse

/-- Python `s.strip(chars)`: strip the character set `cset` from both ends. -/
def pyStripCharsL (cset s : List Char) : List Char :=
  pyRstripCharsL cset (pyLstripCharsL cset s)

/-- Python `s.strip()`: strip whitespace from both ends. -/
def pyStripSpaceL (s : List Char) : List Char :=
  ((s.dropWhile pyIsSpace).reverse.dropWhile pyIsSpace).reverse

/-- Helper for `pyReadlinesL`: `acc` holds the current line read so far,
in reverse. -/
def pyReadlinesAux (acc : List Char) : List Char → List (List Char)
  | [] => if acc.isEmpty then [] else [acc.reverse]
  | c :: t =>
    if c = '\n' then (acc.reverse ++ ['\n']) :: pyReadlinesAux [] t
    else pyReadlinesAux (c :: acc) t

/-- Python `file.readlines()`: split after every newline, keeping the newline;
a final fragment without a trailing newline is kept too. -/
def pyReadlinesL (s : List Char) : List (List Char) := pyReadlinesAux [] s

/-- Numeric value of a decimal digit character. -/
def digitVal (c : Char) : Nat := c.toNat - 48

/-- Value of a string of decimal digits, most significant first. -/
def parseNatDigits (cs : List Char) : Nat :=
  cs.foldl (fun a c => 10 * a + digitVal c) 0

/-- Python `int(s)` restricted to the nonnegative integer literals this
program feeds it; `none` models the `ValueError` raised on anything else. -/
def parsePyInt (cs : List Char) : Option Nat :=
  if cs ≠ [] ∧ cs.all Char.isDigit then some (parseNatDigits cs) else none

/-- Helper for `pyStrOfNatL`; the fuel argument only bounds the recursion and
is always supplied large enough. -/
def pyStrOfNatAux : Nat → Nat → List Char → List Char
  | 0, _, acc => acc
  | fuel + 1, n, acc =>
    if n = 0 then acc
    else pyStrOfNatAux fuel (n / 10) (Nat.digitChar (n % 10) :: acc)

/-- Python `str(n)` for a nonnegative integer, as a character list. -/
def pyStrOfNatL (n : Nat) : List Char :=
  if n = 0 then ['0'] else pyStrOfNatAux (n + 1) n []

/-- Python `str(n)` for a nonnegative integer. -/
def pyStrOfNat (n : Nat) : String := ⟨pyStrOfNatL n⟩

/-- Python `sub in s` on character lists (substring containment). -/
def pyContainsL : List Char → List Char → Bool
  | [], needle => needle.isEmpty
  | c :: t, needle => needle.isPrefixOf (c :: t) || pyContainsL t needle

/-- Python `sub in s` (substring containment). -/
def pyContains (s sub : String) : Bool := pyContainsL s.toList sub.toList

/-- Python `s.endswith(suf)`. -/
def pyEndsWith (s suf : String) : Bool := suf.toList.isSuffixOf s.toList

/-- Helper for `pyReplace`; the fuel argument only bounds the recursion (the
source only replaces the nonempty pattern `'loading_video'`). -/
def pyReplaceAux : Nat → List Char → List Char → List Char → List Char
  | 0, _, _, s => s
  | fuel + 1, pat, repl, s =>
    match s with
    | [] => []
    | c :: t =>
      if pat.isPrefixOf (c :: t) then
        repl ++ pyReplaceAux fuel pat repl ((c :: t).drop pat.length)
      else c :: pyReplaceAux fuel pat repl t

/-- Python `s.replace(pat, repl)` for a nonempty pattern: replace each
leftmost, non-overlapping occurrence. -/
def pyReplace (s pat repl : String) : String :=
  ⟨pyReplaceAux s.toList.length pat.toList repl.toList s.toList⟩

/-! Section: the URL-path collaborator and `get_last_url_segment`. -/

/-- Everything after the first occurrence of `"://"` in `cs`, if present. -/
def afterSchemeMarker : List Char → Option (List Char)
  | [] => none
  | c :: t =>
    if [':', '/', '/'].isPrefixOf (c :: t) then some ((c :: t).drop 3)
    else afterSchemeMarker t

/-- Model of the standard-library collaborator `urllib.parse.urlparse(url).path`
for the URLs this program handles: drop the `scheme://netloc` part when a
scheme marker is present, then cut the path at the first `?` or `#`. -/
def urlparsePath (url : String) : String :=
  let cs := url.toList
  let rest := match afterSchemeMarker cs with
    | some r => r.dropWhile (fun c => c ≠ '/' && c ≠ '?' && c ≠ '#')
    | none => cs
  ⟨rest.takeWhile (fun c => c ≠ '?' && c ≠ '#')⟩

/-- Helper for `pySplitSlash`: `acc` holds the current piece, in reverse. -/
def pySplitSlashAux (acc : List Char) : List Char → List (List Char)
  | [] => [acc.reverse]
  | c :: t =>
    if c = '/' then acc.reverse :: pySplitSlashAux [] t
    else pySplitSlashAux (c :: acc) t

/-- Python `s.split('/')`: split at every slash; the result is never empty
(the empty string splits to `[""]`, as in Python). -/
def pySplitSlash (s : List Char) : List (List Char) := pySplitSlashAux [] s

/-- The last element of a nonempty list of pieces (Python's `[-1]`); the
default is never reached because `pySplitSlash` never returns `[]`. -/
def lastPiece : List (List Char) → List Char
  | [] => []
  | [x] => x
  | _ :: y :: t => lastPiece (y :: t)

/-- Model of `get_last_url_segment` (source lines 147-149):
`urlparse(url).path.rstrip("/").split("/")[-1]`. -/
def get_last_url_segment (url : String) : String :=
  ⟨lastPiece (pySplitSlash (pyRstripCharsL ['/'] (urlparsePath url).toList))⟩

/-! Section: the identity parser. -/

/-- Error taxonomy of the spec for the identity parser.  In the source the
first two cases surface as Python's unbound-local failure (`group` /
`formatted_date` is only assigned under a successful regex match) and the
third as the `ValueError` of `datetime.strptime`; all three propagate. -/
inductive ParseError where
  | NoLeadingDigits
  | NoTimestampMatch
  | InvalidDateTime
deriving DecidableEq

/-- Exactly `n` decimal digits at the head of `cs`: the matched digits and the
rest. -/
def digitsRun (n : Nat) (cs : List Char) : Option (List Char × List Char) :=
  let pre := cs.take n
  if pre.length = n && pre.all Char.isDigit then some (pre, cs.drop n)
  else none

/-- An optional hyphen at the head of `cs` (the regex piece `-?`); the
following mandatory digit makes the greedy choice deterministic. -/
def optHyphen : List Char → (List Char × List Char)
  | '-' :: t => (['-'], t)
  | s => ([], s)

/-- The date group `\d{4}-?\d{2}-?\d{2}` of the timestamp regex, matched at
the head of `cs`: the captured text and the rest. -/
def matchDateGroup (cs : List Char) : Option (List Char × List Char) := do
  let (y, r1) ← digitsRun 4 cs
  let (h1, r2) := optHyphen r1
  let (mo, r3) ← digitsRun 2 r2
  let (h2, r4) := optHyphen r3
  let (d, r5) ← digitsRun 2 r4
  some (y ++ h1 ++ mo ++ h2 ++ d, r5)

/-- The regex tail `(\d{4,6})$`: the whole remainder must be 4 to 6 digits. -/
def matchTimeTail (cs : List Char) : Option (List Char) :=
  if 4 ≤ cs.length && cs.length ≤ 6 && cs.all Char.isDigit then some cs
  else none

/-- The regex tail `[-_]?(\d{4,6})$`: an optional separator (which, not being
a digit, can never instead belong to the time group) then the time group. -/
def matchSepTime (cs : List Char) : Option (List Char) :=
  match cs with
  | [] => none
  | c :: t => if c = '-' || c = '_' then matchTimeTail t else matchTimeTail cs

/-- One attempt of the whole timestamp pattern at a fixed start position:
returns the two captured groups (date text, time digits). -/
def matchTsAt (cs : List Char) : Option (List Char × List Char) := do
  let (date, rest) ← matchDateGroup cs
  let time ← matchSepTime rest
  some (date, time)

/-- Model of `re.search(r'(\d{4}-?\d{2}-?\d{2})[-_]?(\d{4,6})$', s)`: the
leftmost start position wins; at a fixed start the match is deterministic
because every alternative inside the pattern is forced by the next character,
so this equals Python's backtracking search. -/
def searchTimestamp : List Char → Option (List Char × List Char)
  | [] => none
  | c :: t =>
    match matchTsAt (c :: t) with
    | some r => some r
    | none => searchTimestamp t

/-- A calendar instant as produced by `datetime.strptime`. -/
structure PyDateTime where
  year : Nat
  month : Nat
  day : Nat
  hour : Nat
  minute : Nat
  second : Nat
deriving DecidableEq

/-- Gregorian leap-year rule, as used by `datetime`. -/
def isLeapYear (y : Nat) : Bool := (y % 4 == 0 && y % 100 != 0) || y % 400 == 0

/-- Number of days of month `m` of year `y`. -/
def daysInMonth (y m : Nat) : Nat :=
  if m = 2 then (if isLeapYear y then 29 else 28)
  else if m = 4 || m = 6 || m = 9 || m = 11 then 30
  else 31

/-- Model of `datetime.strptime(s, "%Y%m%d%H%M%S")` on the 14-digit strings
`extract_datetime` produces (8 date digits plus 6 zero-padded time digits):
on such strings Python's parser is forced to read five fixed-width fields,
and it succeeds exactly when they form a valid calendar instant; `none`
models the `ValueError` it raises otherwise. -/
def strptime14 (cs : List Char) : Option PyDateTime :=
  if cs.length = 14 && cs.all Char.isDigit then
    let y := parseNatDigits (cs.take 4)
    let mo := parseNatDigits ((cs.drop 4).take 2)
    let d := parseNatDigits ((cs.drop 6).take 2)
    let hh := parseNatDigits ((cs.drop 8).take 2)
    let mi := parseNatDigits ((cs.drop 10).take 2)
    let ss := parseNatDigits ((cs.drop 12).take 2)
    if 1 ≤ y && 1 ≤ mo && mo ≤ 12 && 1 ≤ d && d ≤ daysInMonth y mo
        && hh ≤ 23 && mi ≤ 59 && ss ≤ 59 then
      some ⟨y, mo, d, hh, mi, ss⟩
    else none
  else none

/-- Two-digit zero-padded decimal rendering. -/
def pad2 (n : Nat) : String := if n < 10 then "0" ++ pyStrOfNat n else pyStrOfNat n

/-- Four-digit zero-padded decimal rendering (all years reached through the
timestamp regex are four digits long). -/
def pad4 (n : Nat) : String :=
  if n < 10 then "000" ++ pyStrOfNat n
  else if n < 100 then "00" ++ pyStrOfNat n
  else if n < 1000 then "0" ++ pyStrOfNat n
  else pyStrOfNat n

/-- Model of `date.strftime("%Y-%m-%d-%H-%M-%S")`. -/
def strftimeCanon (d : PyDateTime) : String :=
  pad4 d.year ++ "-" ++ pad2 d.month ++ "-" ++ pad2 d.day ++ "-" ++
    pad2 d.hour ++ "-" ++ pad2 d.minute ++ "-" ++ pad2 d.second

/-- Python `time.ljust(6, '0')`: right-pad the time digits with zeros. -/
def ljust6Zero (t : List Char) : List Char := t ++ List.replicate (6 - t.length) '0'

/-- Python `re.sub(r'-', '', date + time)`: drop every hyphen of the
concatenated groups. -/
def tsJoinedDigits (date time : List Char) : List Char :=
  (date ++ ljust6Zero time).filter (fun c => c ≠ '-')

/-- Model of `extract_datetime` (source lines 220-232).  With no regex match,
Python's `formatted_date` is unbound and the return raises; the spec names
that failure `NoTimestampMatch`.  A `ValueError` from `strptime` is the
spec's `InvalidDateTime`.  Both propagate.  (The source's `if date:` test on
the parsed `datetime` object is always true and is dropped here.) -/
def extract_datetime (s : String) : Except ParseError String :=
  match searchTimestamp s.toList with
  | none => .error .NoTimestampMatch
  | some (date, time) =>
    match strptime14 (tsJoinedDigits date time) with
    | none => .error .InvalidDateTime
    | some d => .ok (strftimeCanon d)

/-- Model of `extract_video_id` (source lines 235-241): `re.match(r'^\d+', s)`
takes the longest leading digit run; with none, Python's `group` is unbound
and the return raises, the spec's `NoLeadingDigits`; propagates. -/
def extract_video_id (s : String) : Except ParseError Nat :=
  let ds := s.toList.takeWhile Char.isDigit
  if ds.isEmpty then .error .NoLeadingDigits else .ok (parseNatDigits ds)

/-- The character set of the Python literal `'.html'` (the argument of
`str.rstrip` is a character set, not a suffix). -/
def htmlStripSet : List Char := ['.', 'h', 't', 'm', 'l']

/-- The segment preprocessing of `get_video_filename` (source line 245):
`get_last_url_segment(link).rstrip('.html')`. -/
def stripped_last_segment (link : String) : String :=
  ⟨pyRstripCharsL htmlStripSet (get_last_url_segment link).toList⟩

/-- Model of `get_video_filename` (source lines 244-249); either parse failure
propagates, the video-id one first, as in the source's statement order. -/
def get_video_filename (performer link : String) :
    Except ParseError (Nat × String) :=
  match extract_video_id (stripped_last_segment link) with
  | .error e => .error e
  | .ok video_id =>
    match extract_datetime (stripped_last_segment link) with
    | .error e => .error e
    | .ok formatted_date =>
      .ok (video_id,
        performer ++ " - " ++ formatted_date ++ " - " ++ pyStrOfNat video_id ++ ".mp4")

/-! Section: documents and selector-level helpers. -/

/-- Abstraction of a fetched `BeautifulSoup` document: each field records the
outcome of one of the source's selector queries on that document (the
selector logic itself is site-specific scraping detail, external to the
pipeline). -/
structure Doc where
  /-- hrefs, in document order, of the `<a>` elements inside the element with
  class `pages`; `[]` also covers a document with no such element, for which
  `get_performer_pages` returns the same `([], 0)`. -/
  pages : List String
  /-- hrefs of the elements with class `moiclick1`, in document order. -/
  listing_hrefs : List String
  /-- text of the `/site/` anchor inside `span.tl`, when present. -/
  source_site : Option String
  /-- `none`: the document has no `<iframe>`; `some a`: the document's first
  `<iframe>`, with `a` its optional `src` attribute. -/
  iframe_src : Option (Option String)
  /-- href of the first `<a>` whose href is a string containing `/model/`,
  when present. -/
  model_href : Option String
deriving DecidableEq

/-- Model of `get_performer_pages` (source lines 122-135). -/
def get_performer_pages (doc : Doc) : List String × Nat :=
  (doc.pages, doc.pages.length)

/-- Model of `get_all_page_urls` (source lines 138-144). -/
def get_all_page_urls (doc : Doc) : List String := doc.listing_hrefs

/-- Model of `get_source_website` (source lines 186-195). -/
def get_source_website (doc : Doc) : Option String := doc.source_site

/-- Python `str(x)` on an optional HTML attribute: the missing attribute is
`None`, which `str` renders as the four-character string `"None"`. -/
def pyStrOfAttr : Option String → String
  | none => "None"
  | some s => s

/-- Model of `get_actual_video_link` (source lines 203-217). -/
def get_actual_video_link (doc : Doc) : Option String :=
  match doc.iframe_src with
  | none => none
  | some attr =>
    let src := pyStrOfAttr attr
    if src ≠ "" then
      some (if pyContains src "loading_video" then
              pyReplace src "loading_video" "play"
            else src)
    else none

/-- Model of `get_performer_name` (source lines 263-273); when the selector
finds an anchor, its href is a string by construction, so the source's
`isinstance` test always passes. -/
def get_performer_name (doc : Doc) : String :=
  match doc.model_href with
  | none => "NA"
  | some href => get_last_url_segment href

/-! Section: the archive ledger. -/

/-- The line `f'showcamrips {video_id}\n'` that `main` appends for each
successful download (source line 341), as a character list. -/
def recordLineL (video_id : Nat) : List Char :=
  "showcamrips ".toList ++ pyStrOfNatL video_id ++ ['\n']

/-- The line `f'showcamrips {video_id}\n'` (source line 341). -/
def recordLine (video_id : Nat) : String := ⟨recordLineL video_id⟩

/-- The archive file text after the canonical appends for `ids`, in order
(the file is created empty by `touch_archive_path` and only ever appended
to by `save_txt`). -/
def renderArchive (ids : List Nat) : String := ⟨(ids.map recordLineL).flatten⟩

/-- The character set of the Python literal `'showcamrips'` as used by
`line.strip('showcamrips')`. -/
def showcamripsSet : List Char := "showcamrips".toList

/-- Failure-propagating map: `none` as soon as `f` fails, as a Python list
comprehension raises on the first bad element. -/
def mapOption (f : α → Option β) : List α → Option (List β)
  | [] => some []
  | a :: t =>
    match f a, mapOption f t with
    | some b, some bs => some (b :: bs)
    | _, _ => none

/-- Model of `read_archive` (source lines 172-176): for every nonempty line
of the file, `int(line.strip('showcamrips').strip())`; `str.strip` with an
argument strips a character set from both ends.  `none` models the
`ValueError` when a line does not reduce to an integer literal. -/
def read_archiveL (content : List Char) : Option (List Nat) :=
  mapOption
    (fun line => parsePyInt (pyStripSpaceL (pyStripCharsL showcamripsSet line)))
    ((pyReadlinesL content).filter (fun l => !l.isEmpty))

/-- Model of `read_archive` on a file holding the given text. -/
def read_archive (content : String) : Option (List Nat) :=
  read_archiveL content.toList

/-! Section: the per-listing loop of `main`. -/

/-- The environment of external collaborators `main` calls into. -/
structure Env where
  /-- `get_document` (no claim concerns a failing fetch, so it is total). -/
  fetch : String → Doc
  /-- `test_for_status` (source lines 198-200): the HEAD status code. -/
  head_status : String → Nat
  /-- whether `video_download_path.exists()` holds after `subprocess.run` of
  the `yt-dlp` command writing to the given path. -/
  transfer_creates : List String → Bool
  /-- whether `embed_comment` (source lines 252-255) returns normally for the
  file at the given path (`false`: it raises). -/
  embed_ok : List String → Bool

/-- Model of the destination-directory choice (source lines 325-329):
`DL_PATH / source_website / performer` when the label is truthy, else
`DL_PATH / performer`.  Paths are component lists. -/
def sorted_download_path (dl_path : List String) (source_website : Option String)
    (performer : String) : List String :=
  match source_website with
  | some sw => if sw ≠ "" then dl_path ++ [sw, performer] else dl_path ++ [performer]
  | none => dl_path ++ [performer]

/-- Model of `ARCHIVES_FOLDER / f'{performer}.txt'` (source line 303). -/
def performer_archive_path (archives_folder : List String) (performer : String) :
    List String :=
  archives_folder ++ [performer ++ ".txt"]

/-- Observable state of one run of `main`'s per-listing loop: the in-memory
`archive` list read once before the loop, the archive file's text, and the
calls made so far to the HEAD probe, the transfer subprocess and the
metadata embedder, each in order. -/
structure LoopState where
  archive : List Nat
  fileContent : String
  probes : List String
  transfers : List String
  embedCalls : List (List String)
deriving DecidableEq

/-- An exception escaping the loop body: a parse failure inside
`get_video_filename`, or a raising `embed_comment`. -/
inductive RunError where
  | parse (e : ParseError)
  | embedFail
deriving DecidableEq

/-- Outcome of one loop iteration: continue with the next listing, or an
exception propagating out of `main` with the state reached so far. -/
inductive StepResult where
  | next (s : LoopState)
  | raised (s : LoopState) (e : RunError)
deriving DecidableEq

/-- The state carried by a step outcome. -/
def StepResult.state : StepResult → LoopState
  | .next s => s
  | .raised s _ => s

/-- Model of one iteration of `main`'s loop over `all_links` (source lines
308-343).  The in-memory `archive` list is read before the loop and — as in
the source — never updated inside it; only the file is appended to.  The
`isinstance(actual_video_link, str)` test is always true at its use site and
is dropped. -/
def processListing (env : Env) (dl_path : List String) (performer : String)
    (st : LoopState) (link : String) : StepResult :=
  match get_video_filename performer link with
  | .error e => .raised st (.parse e)
  | .ok (video_id, video_filename) =>
    if video_id ∈ st.archive then .next st
    else
      let video_soup := env.fetch link
      let source_website := get_source_website video_soup
      match get_actual_video_link video_soup with
      | none => .next st
      | some v =>
        if v = "" then .next st
        else
          let st1 := { st with probes := st.probes ++ [v] }
          if env.head_status v ≠ 200 then .next st1
          else
            let dest :=
              sorted_download_path dl_path source_website performer ++ [video_filename]
            let st2 := { st1 with transfers := st1.transfers ++ [v] }
            if env.transfer_creates dest then
              let st3 := { st2 with embedCalls := st2.embedCalls ++ [dest] }
              if env.embed_ok dest then
                .next { st3 with fileContent := st3.fileContent ++ recordLine video_id }
              else .raised st3 .embedFail
            else .next st2

/-- Outcome of the whole loop: normal exhaustion of the listing queue, or a
propagated exception. -/
inductive RunResult where
  | finished (s : LoopState)
  | raised (s : LoopState) (e : RunError)
deriving DecidableEq

/-- The state carried by a run outcome. -/
def RunResult.state : RunResult → LoopState
  | .finished s => s
  | .raised s _ => s

/-- Model of `main`'s loop over the accumulated `all_links` (source lines
308-343), listing by listing, stopping early on a propagated exception. -/
def runListings (env : Env) (dl_path : List String) (performer : String) :
    List String → LoopState → RunResult
  | [], st => .finished st
  | link :: rest, st =>
    match processListing env dl_path performer st link with
    | .next st' => runListings env dl_path performer rest st'
    | .raised st' e => .raised st' e

/-! Section: the link-accumulation phase of `main`. -/

/-- Result of the crawl phase: the accumulated listing URLs and every URL
passed to `get_document`, in call order (the entry fetch included). -/
structure CrawlResult where
  all_links : List String
  fetched : List String
deriving DecidableEq

/-- Model of the link-accumulation phase of `main` (source lines 282-301) for
one target `url`: the single-item branch, or pagination where the page link
equal to the first one reuses the already-fetched entry document and every
other page link is fetched fresh, listing anchors concatenated in page order
then document order. -/
def crawlLinks (env : Env) (url : String) : CrawlResult :=
  let base_soup := env.fetch url
  if pyContains url "/show-cam-sex-movies/" && pyEndsWith url ".html" then
    { all_links := [url], fetched := [url] }
  else
    let page_links := (get_performer_pages base_soup).1
    let acc := page_links.foldl
      (fun acc page_link =>
        if page_links.head? = some page_link then
          (acc.1 ++ get_all_page_urls base_soup, acc.2)
        else
          (acc.1 ++ get_all_page_urls (env.fetch page_link), acc.2 ++ [page_link]))
      ([], [])
    { all_links := acc.1, fetched := url :: acc.2 }

/-! Section: concrete documents, environments and states used by the closed
instances below. -/

/-- A listing document that resolves to a live stream URL. -/
def streamDoc : Doc :=
  { pages := [], listing_hrefs := [], source_site := some "sitex",
    iframe_src := some (some "https://v/stream.mp4"), model_href := none }

/-- A listing document with no `<iframe>` at all. -/
def noIframeDoc : Doc :=
  { pages := [], listing_hrefs := [], source_site := none,
    iframe_src := none, model_href := none }

/-- A listing document whose `<iframe>` lacks a `src` attribute. -/
def attrlessIframeDoc : Doc :=
  { pages := [], listing_hrefs := [], source_site := none,
    iframe_src := some none, model_href := none }

/-- A listing document whose `<iframe>` carries an empty `src` attribute. -/
def emptySrcIframeDoc : Doc :=
  { pages := [], listing_hrefs := [], source_site := none,
    iframe_src := some (some ""), model_href := none }

/-- An environment where every listing resolves, probes healthy, transfers
successfully and embeds successfully. -/
def sampleEnv : Env :=
  { fetch := fun _ => streamDoc, head_status := fun _ => 200,
    transfer_creates := fun _ => true, embed_ok := fun _ => true }

/-- Like `sampleEnv` but the metadata embedder raises. -/
def embedFailEnv : Env :=
  { fetch := fun _ => streamDoc, head_status := fun _ => 200,
    transfer_creates := fun _ => true, embed_ok := fun _ => false }

/-- An environment whose liveness probe reports 404 for every URL. -/
def deadProbeEnv : Env :=
  { fetch := fun _ => streamDoc, head_status := fun _ => 404,
    transfer_creates := fun _ => true, embed_ok := fun _ => true }

/-- An environment where no listing document has an `<iframe>`. -/
def noLinkEnv : Env :=
  { fetch := fun _ => noIframeDoc, head_status := fun _ => 200,
    transfer_creates := fun _ => true, embed_ok := fun _ => true }

/-- An environment where every listing's `<iframe>` lacks its `src`
attribute. -/
def attrlessEnv : Env :=
  { fetch := fun _ => attrlessIframeDoc, head_status := fun _ => 200,
    transfer_creates := fun _ => true, embed_ok := fun _ => true }

/-- The state at loop entry of a first-ever run: empty archive, empty file,
no collaborator calls yet. -/
def emptyState : LoopState :=
  { archive := [], fileContent := "", probes := [], transfers := [], embedCalls := [] }

/-- The entry document of the concrete pagination scenario: pagination links
`p1`, `p2`; its own listing anchors are `L1`, `L2`. -/
def entryDocC6 : Doc :=
  { pages := ["https://site/model/jane/?p=1", "https://site/model/jane/?p=2"],
    listing_hrefs := ["L1", "L2"], source_site := none, iframe_src := none,
    model_href := some "https://site/model/jane/" }

/-- The second page's document in the pagination scenario: anchor `L3`. -/
def page2DocC6 : Doc :=
  { pages := ["https://site/model/jane/?p=1", "https://site/model/jane/?p=2"],
    listing_hrefs := ["L3"], source_site := none, iframe_src := none,
    model_href := some "https://site/model/jane/" }

/-- The fetcher of the pagination scenario; fetching `p1` again would yield
a document with a sentinel anchor, so a third fetch would be visible in the
accumulated links as well as in the fetch list. -/
def crawlEnvC6 : Env :=
  { fetch := fun u =>
      if u = "https://site/model/jane/" then entryDocC6
      else if u = "https://site/model/jane/?p=2" then page2DocC6
      else { pages := [], listing_hrefs := ["REFETCHED"], source_site := none,
             iframe_src := none, model_href := none },
    head_status := fun _ => 200,
    transfer_creates := fun _ => false, embed_ok := fun _ => false }

/-- A state whose load-time archive already holds id 7. -/
def knownState : LoopState :=
  { archive := [7], fileContent := "showcamrips 7\n", probes := [],
    transfers := [], embedCalls := [] }

/-! Section: helper lemmas. -/

set_option maxRecDepth 100000

/-- The ten decimal digit characters. -/
def decimalDigits : List Char := ['0', '1', '2', '3', '4', '5', '6', '7', '8', '9']

theorem digitChar_mem_decimalDigits {m : Nat} (h : m < 10) :
    Nat.digitChar m ∈ decimalDigits := by
  interval_cases m <;> decide

theorem mem_decimalDigits_isDigit {c : Char} (h : c ∈ decimalDigits) :
    c.isDigit = true := by
  fin_cases h <;> decide

theorem mem_decimalDigits_notSpace {c : Char} (h : c ∈ decimalDigits) :
    pyIsSpace c = false := by
  fin_cases h <;> decide

theorem mem_decimalDigits_ne_newline {c : Char} (h : c ∈ decimalDigits) :
    c ≠ '\n' := by
  fin_cases h <;> decide

theorem digitVal_digitChar {m : Nat} (h : m < 10) :
    digitVal (Nat.digitChar m) = m := by
  interval_cases m <;> decide

theorem pyStrOfNatAux_zero (fuel : Nat) (acc : List Char) :
    pyStrOfNatAux fuel 0 acc = acc := by
  cases fuel <;> simp [pyStrOfNatAux]

theorem pyStrOfNatAux_append (fuel : Nat) :
    ∀ (n : Nat) (acc : List Char),
      pyStrOfNatAux fuel n acc = pyStrOfNatAux fuel n [] ++ acc := by
  induction fuel with
  | zero => intro n acc; simp [pyStrOfNatAux]
  | succ fuel ih =>
    intro n acc
    by_cases h : n = 0
    · subst h; simp [pyStrOfNatAux]
    · simp only [pyStrOfNatAux, if_neg h]
      rw [ih (n / 10) (Nat.digitChar (n % 10) :: acc),
        ih (n / 10) [Nat.digitChar (n % 10)]]
      simp

theorem parseNatDigits_snoc (cs : List Char) (c : Char) :
    parseNatDigits (cs ++ [c]) = 10 * parseNatDigits cs + digitVal c := by
  simp [parseNatDigits, List.foldl_append]

theorem pyStrOfNatAux_spec (fuel : Nat) :
    ∀ n : Nat, 0 < n → n ≤ fuel →
      (∀ c ∈ pyStrOfNatAux fuel n [], c ∈ decimalDigits) ∧
      pyStrOfNatAux fuel n [] ≠ [] ∧
      parseNatDigits (pyStrOfNatAux fuel n []) = n := by
  induction fuel with
  | zero => intro n h1 h2; omega
  | succ fuel ih =>
    intro n h1 h2
    have hn : n ≠ 0 := Nat.pos_iff_ne_zero.mp h1
    have hd : n % 10 < 10 := Nat.mod_lt _ (by norm_num)
    simp only [pyStrOfNatAux, if_neg hn]
    rw [pyStrOfNatAux_append]
    by_cases h10 : n / 10 = 0
    · rw [h10, pyStrOfNatAux_zero]
      refine ⟨?_, by simp, ?_⟩
      · intro c hc
        simp at hc
        subst hc
        exact digitChar_mem_decimalDigits hd
      · have : parseNatDigits [Nat.digitChar (n % 10)] = digitVal (Nat.digitChar (n % 10)) := by
          simp [parseNatDigits]
        simp only [List.nil_append, this, digitVal_digitChar hd]
        omega
    · have hle : n / 10 ≤ fuel := by
        have := Nat.div_lt_self h1 (by norm_num : 1 < 10)
        omega
      obtain ⟨ha, hb, hc⟩ := ih (n / 10) (Nat.pos_of_ne_zero h10) hle
      refine ⟨?_, by simp, ?_⟩
      · intro c hcm
        rcases List.mem_append.mp hcm with h | h
        · exact ha c h
        · simp at h
          subst h
          exact digitChar_mem_decimalDigits hd
      · rw [parseNatDigits_snoc, hc, digitVal_digitChar hd]
        omega

theorem pyStrOfNatL_spec (n : Nat) :
    (∀ c ∈ pyStrOfNatL n, c ∈ decimalDigits) ∧ pyStrOfNatL n ≠ [] ∧
      parseNatDigits (pyStrOfNatL n) = n := by
  by_cases h : n = 0
  · subst h
    exact ⟨by decide, by decide, by decide⟩
  · simp only [pyStrOfNatL, if_neg h]
    exact pyStrOfNatAux_spec (n + 1) n (Nat.pos_of_ne_zero h) (by omega)

theorem dropWhile_eq_self_of_all {p : Char → Bool} {l : List Char}
    (h : ∀ c ∈ l, p c = false) : l.dropWhile p = l := by
  cases l with
  | nil => rfl
  | cons c t =>
    rw [List.dropWhile_cons, if_neg]
    simp [h c (by simp)]

theorem pyReadlinesAux_line (body : List Char) :
    ∀ (acc rest : List Char), (∀ c ∈ body, c ≠ '\n') →
      pyReadlinesAux acc (body ++ '\n' :: rest) =
        (acc.reverse ++ (body ++ ['\n'])) :: pyReadlinesAux [] rest := by
  induction body with
  | nil =>
    intro acc rest _
    simp [pyReadlinesAux]
  | cons c b ih =>
    intro acc rest h
    have hc : c ≠ '\n' := h c (by simp)
    simp only [List.cons_append, pyReadlinesAux, if_neg hc, List.append_eq]
    rw [ih (c :: acc) rest (fun x hx => h x (by simp [hx]))]
    simp

theorem lstrip_showcamrips_header (t : List Char) :
    pyLstripCharsL showcamripsSet ("showcamrips ".toList ++ t) = ' ' :: t := by
  have h : "showcamrips ".toList =
      ['s', 'h', 'o', 'w', 'c', 'a', 'm', 'r', 'i', 'p', 's', ' '] := rfl
  rw [h]
  simp +decide [pyLstripCharsL, List.dropWhile_cons]

theorem rstrip_keeps_newline_tail (l : List Char) :
    pyRstripCharsL showcamripsSet (l ++ ['\n']) = l ++ ['\n'] := by
  simp +decide [pyRstripCharsL, List.dropWhile_cons]

theorem strip_recordLine (ds : List Char) (hne : ds ≠ [])
    (hmem : ∀ c ∈ ds, c ∈ decimalDigits) :
    pyStripSpaceL (pyStripCharsL showcamripsSet
      ("showcamrips ".toList ++ (ds ++ ['\n']))) = ds := by
  unfold pyStripCharsL
  rw [lstrip_showcamrips_header]
  rw [show (' ' :: (ds ++ ['\n'])) = ((' ' :: ds) ++ ['\n']) by simp]
  rw [rstrip_keeps_newline_tail]
  cases ds with
  | nil => exact absurd rfl hne
  | cons d ds' =>
    have hd : pyIsSpace d = false := mem_decimalDigits_notSpace (hmem d (by simp))
    unfold pyStripSpaceL
    have h1 : ((' ' :: d :: ds') ++ ['\n']).dropWhile pyIsSpace =
        (d :: ds') ++ ['\n'] := by
      simp only [List.cons_append, List.dropWhile_cons]
      rw [if_pos (by decide), if_neg (by simp [hd])]
    rw [h1]
    have h2 : ((d :: ds') ++ ['\n']).reverse = '\n' :: (d :: ds').reverse := by
      simp
    rw [h2]
    rw [List.dropWhile_cons, if_pos (by decide)]
    rw [dropWhile_eq_self_of_all (fun c hc => by
      have : c ∈ d :: ds' := List.mem_reverse.mp hc
      exact mem_decimalDigits_notSpace (hmem c this))]
    simp

theorem readLine_recordLine (video_id : Nat) :
    parsePyInt (pyStripSpaceL (pyStripCharsL showcamripsSet (recordLineL video_id))) =
      some video_id := by
  obtain ⟨hmem, hne, hparse⟩ := pyStrOfNatL_spec video_id
  have h : recordLineL video_id =
      "showcamrips ".toList ++ (pyStrOfNatL video_id ++ ['\n']) := by
    simp [recordLineL]
  rw [h, strip_recordLine _ hne hmem]
  have hall : (pyStrOfNatL video_id).all Char.isDigit = true := by
    rw [List.all_eq_true]
    intro c hc
    exact mem_decimalDigits_isDigit (hmem c hc)
  simp [parsePyInt, hne, hall, hparse]

theorem recordLineL_split (i : Nat) :
    recordLineL i = ("showcamrips ".toList ++ pyStrOfNatL i) ++ ['\n'] := by
  simp [recordLineL]

theorem recordLineL_ne_nil (i : Nat) : (recordLineL i).isEmpty = false := by
  rw [recordLineL_split]
  simp

theorem recordLineL_body_no_newline (i : Nat) :
    ∀ c ∈ "showcamrips ".toList ++ pyStrOfNatL i, c ≠ '\n' := by
  intro c hc
  rcases List.mem_append.mp hc with h | h
  · fin_cases h <;> decide
  · exact mem_decimalDigits_ne_newline ((pyStrOfNatL_spec i).1 c h)

theorem read_archiveL_render (ids : List Nat) :
    read_archiveL ((ids.map recordLineL).flatten) = some ids := by
  induction ids with
  | nil => rfl
  | cons i t ih =>
    simp only [List.map_cons, List.flatten_cons]
    have hsplit :
        pyReadlinesL (recordLineL i ++ (t.map recordLineL).flatten) =
          recordLineL i :: pyReadlinesL ((t.map recordLineL).flatten) := by
      rw [recordLineL_split, List.append_assoc, List.singleton_append]
      unfold pyReadlinesL
      rw [pyReadlinesAux_line _ _ _ (recordLineL_body_no_newline i)]
      rw [← recordLineL_split]
      simp
    unfold read_archiveL
    rw [hsplit, List.filter_cons, if_pos (by simp [recordLineL_ne_nil i])]
    unfold read_archiveL at ih
    simp only [mapOption, readLine_recordLine i, ih]

/-- Claim C7: recording N video ids through the canonical tagged append
(`"showcamrips <id>\n"` per id) and reading the archive back with
`read_archive` is a round trip: the read yields exactly the recorded ids
(in particular the same finite set of ids). -/
theorem c7_ledger_write_read_round_trip (ids : List Nat) :
    read_archive (renderArchive ids) = some ids := by
  show read_archiveL ((ids.map recordLineL).flatten) = some ids
  exact read_archiveL_render ids

/-- Witness for C7, at a concrete input: three recorded ids read back as
exactly those three ids. -/
theorem c7_witness : read_archive (renderArchive [5, 123, 7]) = some [5, 123, 7] :=
  c7_ledger_write_read_round_trip [5, 123, 7]

/-- Claim C3: for the segment `"12345-20240102-153000"`, `extract_video_id`
returns 12345 and `extract_datetime` returns `"2024-01-02-15-30-00"`; for the
segment `"999-2024-01-02_1530"`, whose time fragment has only 4 digits,
`extract_datetime` zero-pads the time and returns the same canonical
`"2024-01-02-15-30-00"`, independently of the date's internal hyphens. -/
theorem c3_concrete_segment_parsing :
    extract_video_id "12345-20240102-153000" = .ok 12345 ∧
    extract_datetime "12345-20240102-153000" = .ok "2024-01-02-15-30-00" ∧
    extract_video_id "999-2024-01-02_1530" = .ok 999 ∧
    extract_datetime "999-2024-01-02_1530" = .ok "2024-01-02-15-30-00" := by
  exact ⟨by decide, by decide, by decide, by decide⟩

/-- Claim C6: for the entry URL whose document lists pagination links
`[p1, p2]` with the entry document carrying anchors `[L1, L2]` (page 1's
document is the entry document) and `p2`'s document carrying `[L3]`, the
accumulated listing sequence is exactly `[L1, L2, L3]` in page order then
document order, and only 2 fetches occur (the entry and `p2`), `p1` being
reused from the entry fetch. -/
theorem c6_pagination_accumulation_and_reuse :
    crawlLinks crawlEnvC6 "https://site/model/jane/" =
      { all_links := ["L1", "L2", "L3"],
        fetched := ["https://site/model/jane/", "https://site/model/jane/?p=2"] } ∧
    (crawlLinks crawlEnvC6 "https://site/model/jane/").fetched.length = 2 := by
  exact ⟨by decide, by decide⟩

/-- Counterexample to claim C1 as stated: two listing URLs carrying the same
video id 7, in an environment where every step succeeds, lead to two transfer
invocations for id 7 and to the line `"showcamrips 7\n"` being appended
twice in a single run, because the in-memory `archive` list is never updated
after an append. -/
theorem c1_counterexample_duplicate_id_recorded_twice :
    runListings sampleEnv ["dl"] "p"
      ["https://a/7-20240102-153000.html", "https://b/7-20240102-153000.html"]
      emptyState =
    .finished
      { archive := [],
        fileContent := "showcamrips 7\nshowcamrips 7\n",
        probes := ["https://v/stream.mp4", "https://v/stream.mp4"],
        transfers := ["https://v/stream.mp4", "https://v/stream.mp4"],
        embedCalls := [["dl", "sitex", "p", "p - 2024-01-02-15-30-00 - 7.mp4"],
                       ["dl", "sitex", "p", "p - 2024-01-02-15-30-00 - 7.mp4"]] } := by
  decide

/-- Counterexample to claim C8 as stated: the last path segment
`"123-html"` does not end in `".html"`, yet it is not passed through
unchanged — `rstrip('.html')` strips the trailing characters drawn from the
set `{.,h,t,m,l}` and yields `"123-"`. -/
theorem c8_counterexample_charset_strip :
    get_last_url_segment "https://site/a/123-html" = "123-html" ∧
    stripped_last_segment "https://site/a/123-html" = "123-" ∧
    stripped_last_segment "https://site/a/123-html" ≠
      get_last_url_segment "https://site/a/123-html" := by
  exact ⟨by decide, by decide, by decide⟩

/-! Section: helper lemmas about the per-listing loop step. -/

theorem processListing_skip_known (env : Env) (dl : List String) (performer : String)
    (st : LoopState) (link : String) (vid : Nat) (fn : String)
    (hparse : get_video_filename performer link = .ok (vid, fn))
    (hmem : vid ∈ st.archive) :
    processListing env dl performer st link = .next st := by
  unfold processListing
  rw [hparse]
  simp [hmem]

theorem processListing_archive_invariant (env : Env) (dl : List String)
    (performer : String) (st : LoopState) (link : String) :
    (processListing env dl performer st link).state.archive = st.archive := by
  unfold processListing
  cases get_video_filename performer link with
  | error e => rfl
  | ok p =>
    obtain ⟨vid, fn⟩ := p
    dsimp only
    by_cases hmem : vid ∈ st.archive
    · simp only [if_pos hmem]
      rfl
    · simp only [if_neg hmem]
      cases get_actual_video_link (env.fetch link) with
      | none => rfl
      | some v =>
        dsimp only
        split_ifs <;> rfl

theorem processListing_no_link (env : Env) (dl : List String) (performer : String)
    (st : LoopState) (link : String) (vid : Nat) (fn : String)
    (hparse : get_video_filename performer link = .ok (vid, fn))
    (hmem : vid ∉ st.archive)
    (hvl : get_actual_video_link (env.fetch link) = none) :
    processListing env dl performer st link = .next st := by
  unfold processListing
  rw [hparse]
  dsimp only
  rw [if_neg hmem, hvl]

theorem processListing_empty_link (env : Env) (dl : List String) (performer : String)
    (st : LoopState) (link : String) (vid : Nat) (fn : String)
    (hparse : get_video_filename performer link = .ok (vid, fn))
    (hmem : vid ∉ st.archive)
    (hvl : get_actual_video_link (env.fetch link) = some "") :
    processListing env dl performer st link = .next st := by
  unfold processListing
  rw [hparse]
  dsimp only
  rw [if_neg hmem, hvl]
  simp

theorem processListing_dead_probe (env : Env) (dl : List String) (performer : String)
    (st : LoopState) (link : String) (vid : Nat) (fn : String) (v : String)
    (hparse : get_video_filename performer link = .ok (vid, fn))
    (hmem : vid ∉ st.archive)
    (hvl : get_actual_video_link (env.fetch link) = some v) (hv : v ≠ "")
    (hstatus : env.head_status v ≠ 200) :
    processListing env dl performer st link =
      .next { st with probes := st.probes ++ [v] } := by
  unfold processListing
  rw [hparse]
  dsimp only
  rw [if_neg hmem, hvl]
  dsimp only
  rw [if_neg hv, if_pos hstatus]

theorem processListing_transfer_done (env : Env) (dl : List String)
    (performer : String) (st : LoopState) (link : String) (vid : Nat) (fn : String)
    (v : String)
    (hparse : get_video_filename performer link = .ok (vid, fn))
    (hmem : vid ∉ st.archive)
    (hvl : get_actual_video_link (env.fetch link) = some v) (hv : v ≠ "")
    (hstatus : env.head_status v = 200)
    (hdest : env.transfer_creates
      (sorted_download_path dl (get_source_website (env.fetch link)) performer
        ++ [fn]) = true) :
    processListing env dl performer st link =
      (if env.embed_ok (sorted_download_path dl (get_source_website (env.fetch link))
            performer ++ [fn]) then
        .next { st with
          probes := st.probes ++ [v],
          transfers := st.transfers ++ [v],
          embedCalls := st.embedCalls ++
            [sorted_download_path dl (get_source_website (env.fetch link))
              performer ++ [fn]],
          fileContent := st.fileContent ++ recordLine vid }
      else
        .raised { st with
          probes := st.probes ++ [v],
          transfers := st.transfers ++ [v],
          embedCalls := st.embedCalls ++
            [sorted_download_path dl (get_source_website (env.fetch link))
              performer ++ [fn]] } .embedFail) := by
  unfold processListing
  rw [hparse]
  dsimp only
  rw [if_neg hmem, hvl]
  dsimp only
  rw [if_neg hv, if_neg (by simp [hstatus]), if_pos hdest]

theorem runListings_cons_next (env : Env) (dl : List String) (performer : String)
    (st st' : LoopState) (link : String) (ls : List String)
    (h : processListing env dl performer st link = .next st') :
    runListings env dl performer (link :: ls) st =
      runListings env dl performer ls st' := by
  conv_lhs => rw [runListings]
  rw [h]

/-- Claim C1, amended: the loop's dedup gate `video_id not in archive` checks
only the in-memory list loaded from the archive file before the loop — an id
already present at load time is skipped with no fetch, no transfer and no
ledger mutation — but a successful download's append goes only to the file,
never to the in-memory list (whose field is invariant under every step), so
a video_id appearing under two listing URLs in the same run is downloaded
and appended twice. -/
theorem c1_amended_gate_checks_load_time_archive_only :
    (∀ (env : Env) (dl : List String) (performer : String) (st : LoopState)
        (link : String) (vid : Nat) (fn : String),
      get_video_filename performer link = .ok (vid, fn) → vid ∈ st.archive →
        processListing env dl performer st link = .next st) ∧
    (∀ (env : Env) (dl : List String) (performer : String) (st : LoopState)
        (link : String),
      (processListing env dl performer st link).state.archive = st.archive) :=
  ⟨fun env dl performer st link vid fn hparse hmem =>
      processListing_skip_known env dl performer st link vid fn hparse hmem,
    fun env dl performer st link =>
      processListing_archive_invariant env dl performer st link⟩

/-- Witness for C1 (amended), at a concrete input: id 7 is in the load-time
archive, so the listing is skipped and the state is unchanged. -/
theorem c1_amended_witness :
    get_video_filename "p" "https://a/7-20240102-153000.html" =
        .ok (7, "p - 2024-01-02-15-30-00 - 7.mp4") ∧
    (7 : Nat) ∈ knownState.archive ∧
    processListing sampleEnv ["dl"] "p" knownState "https://a/7-20240102-153000.html" =
      .next knownState :=
  ⟨by decide, by decide,
    c1_amended_gate_checks_load_time_archive_only.1 sampleEnv ["dl"] "p" knownState
      "https://a/7-20240102-153000.html" 7 "p - 2024-01-02-15-30-00 - 7.mp4"
      (by decide) (by decide)⟩

/-- Claim C2: a listing whose resolver yields no stream URL (no iframe, or a
falsy one), or whose liveness probe reports a status other than 200, never
reaches the transfer subprocess and leaves the ledger — archive file text and
in-memory list — unchanged; the loop simply proceeds to the remaining
listings. -/
theorem c2_unresolved_or_dead_listing_is_skipped :
    ∀ (env : Env) (dl : List String) (performer : String) (st : LoopState)
      (link : String) (ls : List String) (vid : Nat) (fn : String),
      get_video_filename performer link = .ok (vid, fn) → vid ∉ st.archive →
      ((get_actual_video_link (env.fetch link) = none ∨
          get_actual_video_link (env.fetch link) = some "") →
        processListing env dl performer st link = .next st ∧
        runListings env dl performer (link :: ls) st =
          runListings env dl performer ls st) ∧
      (∀ v, get_actual_video_link (env.fetch link) = some v → v ≠ "" →
        env.head_status v ≠ 200 →
        processListing env dl performer st link =
          .next { st with probes := st.probes ++ [v] } ∧
        (processListing env dl performer st link).state.transfers = st.transfers ∧
        (processListing env dl performer st link).state.fileContent = st.fileContent ∧
        (processListing env dl performer st link).state.archive = st.archive ∧
        runListings env dl performer (link :: ls) st =
          runListings env dl performer ls { st with probes := st.probes ++ [v] }) := by
  intro env dl performer st link ls vid fn hparse hmem
  constructor
  · intro hvl
    have hstep : processListing env dl performer st link = .next st := by
      rcases hvl with h | h
      · exact processListing_no_link env dl performer st link vid fn hparse hmem h
      · exact processListing_empty_link env dl performer st link vid fn hparse hmem h
    exact ⟨hstep, runListings_cons_next env dl performer st st link ls hstep⟩
  · intro v hvl hv hstatus
    have hstep := processListing_dead_probe env dl performer st link vid fn v
      hparse hmem hvl hv hstatus
    refine ⟨hstep, ?_, ?_, ?_, runListings_cons_next env dl performer st _ link ls hstep⟩
    · rw [hstep]
      rfl
    · rw [hstep]
      rfl
    · rw [hstep]
      rfl

/-- Witness for C2, at concrete inputs: a document with no iframe leaves the
state untouched, and a live-looking URL probed 404 only records the probe. -/
theorem c2_witness :
    get_video_filename "p" "https://a/7-20240102-153000.html" =
        .ok (7, "p - 2024-01-02-15-30-00 - 7.mp4") ∧
    (7 : Nat) ∉ emptyState.archive ∧
    get_actual_video_link (noLinkEnv.fetch "https://a/7-20240102-153000.html") = none ∧
    processListing noLinkEnv ["dl"] "p" emptyState "https://a/7-20240102-153000.html" =
      .next emptyState ∧
    processListing deadProbeEnv ["dl"] "p" emptyState "https://a/7-20240102-153000.html" =
      .next { emptyState with probes := ["https://v/stream.mp4"] } := by
  refine ⟨by decide, by decide, by decide, ?_, ?_⟩
  · exact ((c2_unresolved_or_dead_listing_is_skipped noLinkEnv ["dl"] "p" emptyState
      "https://a/7-20240102-153000.html" [] 7 "p - 2024-01-02-15-30-00 - 7.mp4"
      (by decide) (by decide)).1 (Or.inl (by decide))).1
  · exact ((c2_unresolved_or_dead_listing_is_skipped deadProbeEnv ["dl"] "p" emptyState
      "https://a/7-20240102-153000.html" [] 7 "p - 2024-01-02-15-30-00 - 7.mp4"
      (by decide) (by decide)).2 "https://v/stream.mp4" (by decide) (by decide)
      (by decide)).1

/-- Claim C5: when the destination file exists after the transfer subprocess
exits, the metadata embedder is invoked, and the ledger record for the
video id is appended only after the embedding returns normally; when the
embedding raises, the exception propagates with no ledger record written
for that item. -/
theorem c5_embed_precedes_record :
    ∀ (env : Env) (dl : List String) (performer : String) (st : LoopState)
      (link : String) (vid : Nat) (fn : String) (v : String) (dest : List String),
      get_video_filename performer link = .ok (vid, fn) → vid ∉ st.archive →
      get_actual_video_link (env.fetch link) = some v → v ≠ "" →
      env.head_status v = 200 →
      dest = sorted_download_path dl (get_source_website (env.fetch link)) performer
        ++ [fn] →
      env.transfer_creates dest = true →
      ((env.embed_ok dest = true →
        processListing env dl performer st link =
          .next { st with
            probes := st.probes ++ [v],
            transfers := st.transfers ++ [v],
            embedCalls := st.embedCalls ++ [dest],
            fileContent := st.fileContent ++ recordLine vid }) ∧
       (env.embed_ok dest = false →
        processListing env dl performer st link =
          .raised { st with
            probes := st.probes ++ [v],
            transfers := st.transfers ++ [v],
            embedCalls := st.embedCalls ++ [dest] } .embedFail)) := by
  intro env dl performer st link vid fn v dest hparse hmem hvl hv hstatus hdesteq hdest
  subst hdesteq
  have h := processListing_transfer_done env dl performer st link vid fn v
    hparse hmem hvl hv hstatus hdest
  constructor
  · intro he
    rw [h, if_pos he]
  · intro he
    rw [h, if_neg (by simp [he])]

/-- Witness for C5, at concrete inputs: with a succeeding embedder the record
line for id 7 is appended after the embed call; with a raising embedder the
embed call is made, the exception propagates, and no line is appended. -/
theorem c5_witness :
    processListing sampleEnv ["dl"] "p" emptyState "https://a/7-20240102-153000.html" =
      .next { emptyState with
        probes := ["https://v/stream.mp4"],
        transfers := ["https://v/stream.mp4"],
        embedCalls := [["dl", "sitex", "p", "p - 2024-01-02-15-30-00 - 7.mp4"]],
        fileContent := "showcamrips 7\n" } ∧
    processListing embedFailEnv ["dl"] "p" emptyState "https://a/7-20240102-153000.html" =
      .raised { emptyState with
        probes := ["https://v/stream.mp4"],
        transfers := ["https://v/stream.mp4"],
        embedCalls := [["dl", "sitex", "p", "p - 2024-01-02-15-30-00 - 7.mp4"]] }
        .embedFail := by
  constructor
  · have h := (c5_embed_precedes_record sampleEnv ["dl"] "p" emptyState
      "https://a/7-20240102-153000.html" 7 "p - 2024-01-02-15-30-00 - 7.mp4"
      "https://v/stream.mp4" ["dl", "sitex", "p", "p - 2024-01-02-15-30-00 - 7.mp4"]
      (by decide) (by decide) (by decide) (by decide) (by decide) (by decide)
      (by decide)).1 (by decide)
    exact h.trans (by decide)
  · have h := (c5_embed_precedes_record embedFailEnv ["dl"] "p" emptyState
      "https://a/7-20240102-153000.html" 7 "p - 2024-01-02-15-30-00 - 7.mp4"
      "https://v/stream.mp4" ["dl", "sitex", "p", "p - 2024-01-02-15-30-00 - 7.mp4"]
      (by decide) (by decide) (by decide) (by decide) (by decide) (by decide)
      (by decide)).2 (by decide)
    exact h.trans (by decide)

/-- Counterexample to the last clause of claim C9 as stated ("only a document
with no iframe element at all yields an absent link"): a document that does
have an iframe, whose `src` attribute is present but empty, also yields an
absent link, because `str('')` is `''` and fails the source's `if src:`
test. -/
theorem c9_counterexample_empty_src_also_absent :
    emptySrcIframeDoc.iframe_src ≠ none ∧
    get_actual_video_link emptySrcIframeDoc = none :=
  ⟨by decide, by decide⟩

/-- Claim C9, amended: a listing document whose iframe lacks a `src`
attribute makes `get_actual_video_link` return the four-character string
`"None"` (the stringification of the absent attribute) rather than an absent
link, so the caller's presence check passes and the liveness probe is issued
against the literal URL `"None"`; an absent link results exactly when the
document has no iframe at all or when the iframe's `src` attribute is
present but empty (the falsy `str('')` fails the `if src:` test). -/
theorem c9_amended_missing_src_attribute_stringified :
    (∀ doc : Doc, doc.iframe_src = some none →
      get_actual_video_link doc = some "None") ∧
    (∀ doc : Doc, get_actual_video_link doc = none ↔
      (doc.iframe_src = none ∨ doc.iframe_src = some (some ""))) ∧
    (∀ (env : Env) (dl : List String) (performer : String) (st : LoopState)
        (link : String) (vid : Nat) (fn : String),
      get_video_filename performer link = .ok (vid, fn) → vid ∉ st.archive →
      (env.fetch link).iframe_src = some none →
      (processListing env dl performer st link).state.probes =
        st.probes ++ ["None"]) := by
  refine ⟨?_, ?_, ?_⟩
  · intro doc h
    unfold get_actual_video_link
    rw [h]
    decide
  · intro doc
    unfold get_actual_video_link
    cases h : doc.iframe_src with
    | none => simp
    | some attr =>
      cases attr with
      | none => simp [pyStrOfAttr]
      | some s =>
        dsimp only
        by_cases hs : s = ""
        · subst hs
          simp [pyStrOfAttr]
        · simp [pyStrOfAttr, hs]
  · intro env dl performer st link vid fn hparse hmem hif
    have hvl : get_actual_video_link (env.fetch link) = some "None" := by
      unfold get_actual_video_link
      rw [hif]
      decide
    unfold processListing
    rw [hparse]
    dsimp only
    rw [if_neg hmem, hvl]
    dsimp only
    rw [if_neg (by decide : ¬ ("None" : String) = "")]
    split_ifs <;> rfl

/-- Witness for C9 (amended), at concrete inputs: the src-less iframe
document yields the link `"None"` and the loop step issues the probe against
`"None"`; the iframe-less document and the empty-src document yield an
absent link, through the exact characterization. -/
theorem c9_amended_witness :
    get_actual_video_link attrlessIframeDoc = some "None" ∧
    get_actual_video_link noIframeDoc = none ∧
    get_actual_video_link emptySrcIframeDoc = none ∧
    (processListing attrlessEnv ["dl"] "p" emptyState
        "https://a/7-20240102-153000.html").state.probes = ["None"] :=
  ⟨c9_amended_missing_src_attribute_stringified.1 attrlessIframeDoc (by decide),
    (c9_amended_missing_src_attribute_stringified.2.1 noIframeDoc).mpr
      (Or.inl (by decide)),
    (c9_amended_missing_src_attribute_stringified.2.1 emptySrcIframeDoc).mpr
      (Or.inr (by decide)),
    c9_amended_missing_src_attribute_stringified.2.2 attrlessEnv ["dl"] "p" emptyState
      "https://a/7-20240102-153000.html" 7 "p - 2024-01-02-15-30-00 - 7.mp4"
      (by decide) (by decide) (by decide)⟩

/-- Claim C10: an entry document with no `/model/` anchor yields the fixed
fallback performer name `"NA"`, so every such run shares the archive file
`NA.txt` and the download subdirectory `NA` (merging dedup state across all
performers whose name could not be determined). -/
theorem c10_fallback_performer_name_NA :
    ∀ (doc : Doc) (archives_folder dl : List String),
      doc.model_href = none →
      get_performer_name doc = "NA" ∧
      performer_archive_path archives_folder (get_performer_name doc) =
        archives_folder ++ ["NA.txt"] ∧
      sorted_download_path dl none (get_performer_name doc) = dl ++ ["NA"] := by
  intro doc archives_folder dl h
  have h1 : get_performer_name doc = "NA" := by
    unfold get_performer_name
    rw [h]
  refine ⟨h1, ?_, ?_⟩
  · unfold performer_archive_path
    rw [h1]
    rfl
  · unfold sorted_download_path
    rw [h1]

/-- Witness for C10, at a concrete input: the iframe-less sample document has
no `/model/` anchor, so its runs use `NA.txt` and the `NA` directory. -/
theorem c10_witness :
    get_performer_name noIframeDoc = "NA" ∧
    performer_archive_path ["ar"] (get_performer_name noIframeDoc) =
      ["ar", "NA.txt"] ∧
    sorted_download_path ["dl"] none (get_performer_name noIframeDoc) =
      ["dl", "NA"] :=
  c10_fallback_performer_name_NA noIframeDoc ["ar"] ["dl"] (by decide)

/-- Claim C4: a segment with no leading decimal digit makes
`extract_video_id` fail with `NoLeadingDigits`; a segment without the
trailing date-time pattern makes `extract_datetime` fail with
`NoTimestampMatch`; matched digits that are not a valid calendar instant
make it fail with `InvalidDateTime`; and each failure propagates unrecovered
through `get_video_filename` and out of the loop body. -/
theorem c4_parse_failures_propagate :
    (∀ s : String, (∀ c, s.toList.head? = some c → c.isDigit = false) →
      extract_video_id s = .error .NoLeadingDigits) ∧
    (∀ s : String, searchTimestamp s.toList = none →
      extract_datetime s = .error .NoTimestampMatch) ∧
    (∀ (s : String) (date time : List Char),
      searchTimestamp s.toList = some (date, time) →
      strptime14 (tsJoinedDigits date time) = none →
      extract_datetime s = .error .InvalidDateTime) ∧
    (∀ (performer link : String) (e : ParseError),
      extract_video_id (stripped_last_segment link) = .error e →
      get_video_filename performer link = .error e) ∧
    (∀ (performer link : String) (vid : Nat) (e : ParseError),
      extract_video_id (stripped_last_segment link) = .ok vid →
      extract_datetime (stripped_last_segment link) = .error e →
      get_video_filename performer link = .error e) ∧
    (∀ (env : Env) (dl : List String) (performer : String) (st : LoopState)
        (link : String) (e : ParseError),
      get_video_filename performer link = .error e →
      processListing env dl performer st link = .raised st (.parse e)) := by
  refine ⟨?_, ?_, ?_, ?_, ?_, ?_⟩
  · intro s h
    unfold extract_video_id
    cases hl : s.toList with
    | nil => simp
    | cons c t =>
      have hc : c.isDigit = false := h c (by rw [hl]; rfl)
      simp [List.takeWhile_cons, hc]
  · intro s h
    unfold extract_datetime
    rw [h]
  · intro s date time h1 h2
    unfold extract_datetime
    rw [h1]
    dsimp only
    rw [h2]
  · intro performer link e h
    unfold get_video_filename
    rw [h]
  · intro performer link vid e h1 h2
    unfold get_video_filename
    rw [h1]
    dsimp only
    rw [h2]
  · intro env dl performer st link e h
    unfold processListing
    rw [h]

/-- Witness for C4, at concrete inputs: `"xyz"` has no leading digit and no
timestamp; `"1-20241301-120000"` matches the pattern but month 13 is not a
valid date; the segment `"xyz"` of the concrete URL propagates its
`NoLeadingDigits` failure through `get_video_filename` and the loop step. -/
theorem c4_witness :
    extract_video_id "xyz" = .error .NoLeadingDigits ∧
    extract_datetime "xyz" = .error .NoTimestampMatch ∧
    extract_datetime "1-20241301-120000" = .error .InvalidDateTime ∧
    get_video_filename "p" "https://a/xyz" = .error .NoLeadingDigits ∧
    processListing sampleEnv ["dl"] "p" emptyState "https://a/xyz" =
      .raised emptyState (.parse .NoLeadingDigits) := by
  have h1 : extract_video_id "xyz" = .error .NoLeadingDigits :=
    c4_parse_failures_propagate.1 "xyz"
      (fun c hc => by
        rw [show ("xyz".toList.head? = some 'x') from rfl] at hc
        cases hc
        decide)
  have h2 : extract_datetime "xyz" = .error .NoTimestampMatch :=
    c4_parse_failures_propagate.2.1 "xyz" (by decide)
  have h3 : extract_datetime "1-20241301-120000" = .error .InvalidDateTime :=
    c4_parse_failures_propagate.2.2.1 "1-20241301-120000"
      "20241301".toList "120000".toList (by decide) (by decide)
  have h4 : get_video_filename "p" "https://a/xyz" = .error .NoLeadingDigits :=
    c4_parse_failures_propagate.2.2.2.1 "p" "https://a/xyz" .NoLeadingDigits
      (by decide)
  have h5 : processListing sampleEnv ["dl"] "p" emptyState "https://a/xyz" =
      .raised emptyState (.parse .NoLeadingDigits) :=
    c4_parse_failures_propagate.2.2.2.2.2 sampleEnv ["dl"] "p" emptyState
      "https://a/xyz" .NoLeadingDigits h4
  exact ⟨h1, h2, h3, h4, h5⟩

theorem rstrip_html_of_append (s : List Char) :
    pyRstripCharsL htmlStripSet (s ++ ".html".toList) =
      pyRstripCharsL htmlStripSet s := by
  rw [show ".html".toList = ['.', 'h', 't', 'm', 'l'] from rfl]
  unfold pyRstripCharsL
  rw [List.reverse_append]
  rw [show (['.', 'h', 't', 'm', 'l'] : List Char).reverse =
    ['l', 'm', 't', 'h', '.'] from rfl]
  simp +decide [List.dropWhile_cons]

theorem rstrip_stops_outside_set (s : List Char) (c : Char)
    (hc : htmlStripSet.contains c = false) :
    pyRstripCharsL htmlStripSet (s ++ [c]) = s ++ [c] := by
  have hc2 : c ∉ htmlStripSet := by simpa using hc
  unfold pyRstripCharsL
  rw [List.reverse_append]
  simp [List.dropWhile_cons, hc2]

/-- Claim C8, amended: the identity parser takes the URL's path, strips
trailing slashes, splits on `/` and takes the last component; from that
component `rstrip('.html')` then removes the longest trailing run of
characters drawn from the set `{'.', 'h', 't', 'm', 'l'}` — so a trailing
`".html"` suffix is removed (together with any further set characters
preceding it), and a component whose last character lies outside that set is
passed through unchanged. -/
theorem c8_amended_charset_strip :
    (∀ (url : String) (s : List Char),
      (get_last_url_segment url).toList = s ++ ".html".toList →
      (stripped_last_segment url).toList = pyRstripCharsL htmlStripSet s) ∧
    (∀ (url : String) (s : List Char) (c : Char),
      (get_last_url_segment url).toList = s ++ [c] →
      htmlStripSet.contains c = false →
      stripped_last_segment url = get_last_url_segment url) := by
  constructor
  · intro url s h
    show pyRstripCharsL htmlStripSet (get_last_url_segment url).toList =
      pyRstripCharsL htmlStripSet s
    rw [h]
    exact rstrip_html_of_append s
  · intro url s c h hc
    show (⟨pyRstripCharsL htmlStripSet (get_last_url_segment url).toList⟩ : String) =
      get_last_url_segment url
    rw [h, rstrip_stops_outside_set s c hc, ← h]
    rfl

/-- Witness for C8 (amended), at concrete inputs: the segment `"v1.html"`
loses exactly its `".html"` suffix, and the segment `"seg9"`, ending in a
character outside the strip set, passes through unchanged. -/
theorem c8_amended_witness :
    (get_last_url_segment "https://x/a/v1.html").toList =
        "v1".toList ++ ".html".toList ∧
    (stripped_last_segment "https://x/a/v1.html").toList =
      pyRstripCharsL htmlStripSet "v1".toList ∧
    (get_last_url_segment "https://x/a/seg9").toList = "seg".toList ++ ['9'] ∧
    stripped_last_segment "https://x/a/seg9" = get_last_url_segment "https://x/a/seg9" := by
  refine ⟨by decide, ?_, by decide, ?_⟩
  · exact c8_amended_charset_strip.1 "https://x/a/v1.html" "v1".toList (by decide)
  · exact c8_amended_charset_strip.2 "https://x/a/seg9" "seg".toList '9'
      (by decide) (by decide)

end Showcampy
